import Mathlib

/-!
Shallow embedding of the reconciliation logic of the
cbcoutinho/terraform-provider-proxmox provider.

Each Terraform resource operation is embedded as a pure Lean function.
Remote API interactions are made explicit: an operation either takes the
results of the remote calls it performs as parameters of type
Except String α, in exactly the order the Go code issues the calls, or it
runs against a small idealized server state for end-to-end properties.
The terraform-plugin-framework and the go-proxmox client are external
collaborators; only the values this repository reads from them are
modelled.
-/

set_option autoImplicit false

namespace ProxmoxProvider

/-- Embeds terraform types.String: a value can be unknown, null, or a
concrete string value. -/
inductive TFString where
  | unknown
  | null
  | value (s : String)
  deriving Repr, DecidableEq

/-- Embeds the Go method IsUnknown. -/
def TFString.isUnknown : TFString → Bool
  | .unknown => true
  | _ => false

/-- Embeds the Go method IsNull. -/
def TFString.isNull : TFString → Bool
  | .null => true
  | _ => false

/-- Embeds the Go method ValueString: the held string, or the empty string
for null and unknown values. -/
def TFString.valueString : TFString → String
  | .value s => s
  | _ => ""

/-- Embeds a framework diagnostic. AddError produces attrPath = none,
AddAttributeError produces attrPath = some name. -/
structure Diagnostic where
  attrPath : Option String
  summary : String
  detail : String
  deriving Repr, DecidableEq

/-- Result of one resource operation. The constructor ok is the only one
that sets local state; diag returns a diagnostic without touching state;
crash models a Go runtime panic (no diagnostic, process aborts). -/
inductive Outcome (σ : Type) where
  | ok (s : σ)
  | diag (d : Diagnostic)
  | crash
  deriving Repr, DecidableEq

/-- One remote call made by a Delete implementation: resolving the remote
object by identity, or issuing the remote deletion. -/
inductive RemoteOp where
  | resolve (id : String)
  | delete (id : String)
  deriving Repr, DecidableEq

/-! SDN zone resource (file sdn_zone_resource.go, src/unnamed/part_001). -/

/-- Embeds the go-proxmox Zone response fields used by the resource. -/
structure Zone where
  zone : String
  ty : String
  dns : String
  bridge : String
  digest : String
  deriving Repr, DecidableEq

/-- Embeds sdnZoneResourceModel: the terraform state record of the zone
resource. The field ty embeds the Go field Type. -/
structure SdnZoneModel where
  zone : TFString
  ty : TFString
  dns : TFString
  bridge : TFString
  digest : TFString
  deriving Repr, DecidableEq

/-- Embeds the response mapping of sdnZoneResource.Create, lines 128-138:
zone, type and digest are always overwritten from the response; dns and
bridge only when the server value is non-empty. -/
def zoneCreateMapped (plan : SdnZoneModel) (zone : Zone) : SdnZoneModel :=
  let plan := { plan with
    zone := TFString.value zone.zone
    ty := TFString.value zone.ty
    digest := TFString.value zone.digest }
  let plan := if zone.dns ≠ "" then { plan with dns := TFString.value zone.dns } else plan
  if zone.bridge ≠ "" then { plan with bridge := TFString.value zone.bridge } else plan

/-- Embeds sdnZoneResource.Create: the parameter is the result of the
client.NewZone call. On error a diagnostic is returned and no state is
set; on success the mapped plan is persisted. -/
def sdnZoneCreate (plan : SdnZoneModel) (newZoneResult : Except String Zone) :
    Outcome SdnZoneModel :=
  match newZoneResult with
  | .error e => .diag ⟨none, "Unable to Read Proxmox Node", e⟩
  | .ok zone => .ok (zoneCreateMapped plan zone)

/-- Embeds the response mapping of sdnZoneResource.Read, lines 171-183.
Lines 172-174 set zone, type and bridge unconditionally; lines 175-180
guard dns and bridge on a non-empty server value; lines 182-183 then
assign dns and bridge from the server unconditionally, so the guards have
no effect on the final record. The digest field is not touched by Read. -/
def zoneReadMapped (state : SdnZoneModel) (ret : Zone) : SdnZoneModel :=
  let state := { state with
    zone := TFString.value ret.zone
    ty := TFString.value ret.ty
    bridge := TFString.value ret.bridge }
  let state := if ret.dns ≠ "" then { state with dns := TFString.value ret.dns } else state
  let state := if ret.bridge ≠ "" then { state with bridge := TFString.value ret.bridge } else state
  { state with dns := TFString.value ret.dns, bridge := TFString.value ret.bridge }

/-- Embeds sdnZoneResource.Read: the parameter is the result of the
client.Zone fetch. -/
def sdnZoneRead (state : SdnZoneModel) (fetch : Except String Zone) :
    Outcome SdnZoneModel :=
  match fetch with
  | .error e => .diag ⟨none, "Unable to Read Proxmox Node", e⟩
  | .ok ret => .ok (zoneReadMapped state ret)

/-- Embeds the response mapping of sdnZoneResource.Update, lines 230-238:
zone, type and digest always overwritten, dns and bridge only when
non-empty. -/
def zoneUpdateMapped (plan : SdnZoneModel) (ret : Zone) : SdnZoneModel :=
  let plan := { plan with
    zone := TFString.value ret.zone
    ty := TFString.value ret.ty
    digest := TFString.value ret.digest }
  let plan := if ret.dns ≠ "" then { plan with dns := TFString.value ret.dns } else plan
  if ret.bridge ≠ "" then { plan with bridge := TFString.value ret.bridge } else plan

/-- Embeds sdnZoneResource.Update. The parameters are, in call order, the
result of the first client.Zone fetch, the result of the ret.Update call,
and the result of the second client.Zone fetch. Line 219 of the source
discards the result of ret.Update, so the updateResult parameter is
ignored, exactly as in the Go code. -/
def sdnZoneUpdate (plan : SdnZoneModel) (fetch1 : Except String Zone)
    (_updateResult : Except String Unit) (fetch2 : Except String Zone) :
    Outcome SdnZoneModel :=
  match fetch1 with
  | .error e => .diag ⟨none, "Unable to Read Proxmox Node", e⟩
  | .ok _ =>
    match fetch2 with
    | .error e => .diag ⟨none, "Unable to Read Proxmox Node", e⟩
    | .ok ret => .ok (zoneUpdateMapped plan ret)

/-- Embeds sdnZoneResource.Delete, lines 249-271: the zone is resolved by
name via client.Zone; on fetch error a diagnostic is returned; otherwise
zone.Delete is issued (its error result is discarded on line 268). The
second component records the remote calls made. -/
def sdnZoneDelete (state : SdnZoneModel) (fetch : Except String Zone) :
    Outcome Unit × List RemoteOp :=
  match fetch with
  | .error e => (.diag ⟨none, "Unable to Read Proxmox Node", e⟩,
      [RemoteOp.resolve state.zone.valueString])
  | .ok _ => (.ok (),
      [RemoteOp.resolve state.zone.valueString, RemoteOp.delete state.zone.valueString])

/-! SDN vnet resource (file sdn_vnet_resource.go.org; this source file is
excluded from the Go build by its name, but is embedded as written). -/

/-- Embeds the remote vnet response as the Read code consumes it: the
field vnet embeds ret.Vnet, and reprStr stands for the value the source
passes to types.StringValue on line 129 when it hands over the fetched
object itself. -/
structure Vnet where
  vnet : String
  reprStr : String
  deriving Repr, DecidableEq

/-- Embeds sdnVnetResourceModel. -/
structure SdnVnetModel where
  zone : TFString
  vnet : TFString
  deriving Repr, DecidableEq

/-- Embeds sdnVnetResource.Create: on NewVnet error a diagnostic and no
state; on success the plan is persisted unchanged. -/
def sdnVnetCreate (plan : SdnVnetModel) (newVnetResult : Except String Unit) :
    Outcome SdnVnetModel :=
  match newVnetResult with
  | .error e => .diag ⟨none, "Unable to Read Proxmox Node", e⟩
  | .ok _ => .ok plan

/-- Embeds the response mapping of sdnVnetResource.Read, lines 128-129. -/
def vnetReadMapped (state : SdnVnetModel) (ret : Vnet) : SdnVnetModel :=
  let state := { state with vnet := TFString.value ret.vnet }
  { state with zone := TFString.value ret.reprStr }

/-- Embeds sdnVnetResource.Read. -/
def sdnVnetRead (state : SdnVnetModel) (fetch : Except String Vnet) :
    Outcome SdnVnetModel :=
  match fetch with
  | .error e => .diag ⟨none, "Unable to Read Proxmox Node", e⟩
  | .ok ret => .ok (vnetReadMapped state ret)

/-- Embeds sdnVnetResource.Delete, lines 154-176: resolve by vnet name,
diagnostic on fetch error, otherwise issue the remote deletion (error
result discarded on line 173). -/
def sdnVnetDelete (state : SdnVnetModel) (fetch : Except String Vnet) :
    Outcome Unit × List RemoteOp :=
  match fetch with
  | .error e => (.diag ⟨none, "Unable to Read Proxmox Node", e⟩,
      [RemoteOp.resolve state.vnet.valueString])
  | .ok _ => (.ok (),
      [RemoteOp.resolve state.vnet.valueString, RemoteOp.delete state.vnet.valueString])

/-! Cluster firewall group resource
(file cluster_firewall_group_resource.go). -/

/-- Embeds the go-proxmox FirewallRule fields used by the resource. The
field ty embeds the Go field Type. -/
structure FirewallRule where
  action : String
  ty : String
  deriving Repr, DecidableEq

/-- Embeds clusterFirewallGroupRuleModel. -/
structure FwRuleModel where
  action : TFString
  ty : TFString
  deriving Repr, DecidableEq

/-- Embeds clusterFirewallGroupResourceModel; the comment attribute is
commented out in the source and therefore absent here. -/
structure FwGroupModel where
  group : TFString
  rules : List FwRuleModel
  deriving Repr, DecidableEq

/-- Embeds the go-proxmox FirewallSecurityGroup fields used by the
resource. -/
structure FirewallSecurityGroup where
  group : String
  rules : List FirewallRule
  deriving Repr, DecidableEq

/-- Embeds the plan-to-API rule conversion, lines 119-124. -/
def ruleToApi (r : FwRuleModel) : FirewallRule :=
  ⟨r.action.valueString, r.ty.valueString⟩

/-- Embeds the API-to-model rule conversion used in the positional write,
lines 159-162. -/
def ruleOfApi (r : FirewallRule) : FwRuleModel :=
  ⟨TFString.value r.action, TFString.value r.ty⟩

/-- Embeds the Go loop for index, rule := range fwGroup.Rules writing
FirewallRules at position index. A write at an index outside the local
list is a Go slice index-out-of-range runtime panic, embedded as none. -/
def writeRulesFrom : List FwRuleModel → Nat → List FirewallRule → Option (List FwRuleModel)
  | locals, _, [] => some locals
  | locals, i, r :: rs =>
    if i < locals.length then writeRulesFrom (locals.set i (ruleOfApi r)) (i + 1) rs
    else none

/-- Embeds the whole positional mapping loop starting at index 0, as used
at lines 158-163, 204-209 and 303-308. -/
def mapRulesPositional (locals : List FwRuleModel) (remote : List FirewallRule) :
    Option (List FwRuleModel) :=
  writeRulesFrom locals 0 remote

/-- Embeds the shared fetched-group-to-model mapping: the group name is
overwritten from the response, then each remote rule is written into the
local rule list by position. -/
def fwMapFetched (m : FwGroupModel) (fwGroup : FirewallSecurityGroup) :
    Outcome FwGroupModel :=
  match mapRulesPositional m.rules fwGroup.rules with
  | none => .crash
  | some rs => .ok ⟨TFString.value fwGroup.group, rs⟩

/-- Embeds clusterFirewallGroupResource.Create. Parameters in call order:
the client.Cluster result, the cluster.NewFWGroup result, and the
cluster.FWGroup re-fetch result. -/
def clusterFirewallGroupCreate (plan : FwGroupModel)
    (clusterResult : Except String Unit)
    (newFWGroupResult : Except String Unit)
    (fetchResult : Except String FirewallSecurityGroup) : Outcome FwGroupModel :=
  match clusterResult with
  | .error e => .diag ⟨none, "Unable to Read Proxmox Cluster", e⟩
  | .ok _ =>
    match newFWGroupResult with
    | .error e => .diag ⟨none, "Unable to create Proxmox Cluster Firewall Group", e⟩
    | .ok _ =>
      match fetchResult with
      | .error e => .diag ⟨none, "Unable to retrieve Proxmox Cluster Firewall Group", e⟩
      | .ok fwGroup => fwMapFetched plan fwGroup

/-- Embeds clusterFirewallGroupResource.Read. Parameters in call order:
the client.Cluster result and the cluster.FWGroup fetch result. -/
def clusterFirewallGroupRead (state : FwGroupModel)
    (clusterResult : Except String Unit)
    (fetchResult : Except String FirewallSecurityGroup) : Outcome FwGroupModel :=
  match clusterResult with
  | .error e => .diag ⟨none, "Unable to Read Proxmox Cluster", e⟩
  | .ok _ =>
    match fetchResult with
    | .error e => .diag ⟨none, "Unable to retrieve Proxmox Cluster Firewall Group", e⟩
    | .ok fwGroup => fwMapFetched state fwGroup

/-- Embeds clusterFirewallGroupResource.Update, which recreates the group:
fetch the existing group, delete it, create a new group from the plan,
re-fetch it, and map the re-fetched group into the plan. Parameters in
call order: client.Cluster, first cluster.FWGroup fetch, fwGroup.Delete,
cluster.NewFWGroup, second cluster.FWGroup fetch. -/
def clusterFirewallGroupUpdate (plan : FwGroupModel)
    (clusterResult : Except String Unit)
    (fetch1 : Except String FirewallSecurityGroup)
    (deleteResult : Except String Unit)
    (newFWGroupResult : Except String Unit)
    (fetch2 : Except String FirewallSecurityGroup) : Outcome FwGroupModel :=
  match clusterResult with
  | .error e => .diag ⟨none, "Unable to Read Proxmox Cluster", e⟩
  | .ok _ =>
    match fetch1 with
    | .error e => .diag ⟨none, "Unable to retrieve Proxmox Cluster Firewall Group", e⟩
    | .ok _ =>
      match deleteResult with
      | .error e => .diag ⟨none, "Unable to Read Proxmox Cluster", e⟩
      | .ok _ =>
        match newFWGroupResult with
        | .error e => .diag ⟨none, "Unable to create Proxmox Cluster Firewall Group", e⟩
        | .ok _ =>
          match fetch2 with
          | .error e => .diag ⟨none, "Unable to retrieve Proxmox Cluster Firewall Group", e⟩
          | .ok fwGroup => fwMapFetched plan fwGroup

/-- Embeds clusterFirewallGroupResource.Delete, lines 318-319: the body of
the Go method is empty, so no remote call is made, no diagnostic is added
and the framework drops the local record. -/
def clusterFirewallGroupDelete (_state : FwGroupModel) : Outcome Unit × List RemoteOp :=
  (.ok (), [])

/-! Idealized Proxmox server state for cluster firewall groups, used to
chain the delete-then-recreate update with a subsequent read. The server
stores named groups and answers fetch, delete and create faithfully. -/

/-- Idealized remote server state: the list of existing firewall security
groups, with unique names. -/
abbrev FwServer := List FirewallSecurityGroup

/-- Fetch a group by name; an absent name is a remote error. -/
def FwServer.fwGroup (s : FwServer) (name : String) : Except String FirewallSecurityGroup :=
  match s.find? (fun g => g.group == name) with
  | some g => .ok g
  | none => .error ("no such security group: " ++ name)

/-- Remote deletion of a group by name. -/
def FwServer.deleteGroup (s : FwServer) (name : String) : FwServer :=
  s.filter (fun g => g.group != name)

/-- Remote creation of a group; an already existing name is a remote
error. -/
def FwServer.newGroup (s : FwServer) (g : FirewallSecurityGroup) : Except String FwServer :=
  match s.find? (fun h => h.group == g.group) with
  | some _ => .error ("security group exists: " ++ g.group)
  | none => .ok (g :: s)

/-- Embeds the request body built from the plan in Create and Update,
lines 261-278: the planned rule list converted rule by rule. -/
def fwGroupOfPlan (plan : FwGroupModel) : FirewallSecurityGroup :=
  ⟨plan.group.valueString, plan.rules.map ruleToApi⟩

/-- Runs clusterFirewallGroupResource.Update against the idealized server:
each remote call result is drawn from the evolving server state, in the
order the source issues the calls. -/
def clusterFirewallGroupUpdateOn (plan : FwGroupModel) (server : FwServer) :
    FwServer × Outcome FwGroupModel :=
  match server.fwGroup plan.group.valueString with
  | .error e => (server, .diag ⟨none, "Unable to retrieve Proxmox Cluster Firewall Group", e⟩)
  | .ok _ =>
    let server1 := server.deleteGroup plan.group.valueString
    match server1.newGroup (fwGroupOfPlan plan) with
    | .error e => (server1, .diag ⟨none, "Unable to create Proxmox Cluster Firewall Group", e⟩)
    | .ok server2 =>
      match server2.fwGroup plan.group.valueString with
      | .error e => (server2, .diag ⟨none, "Unable to retrieve Proxmox Cluster Firewall Group", e⟩)
      | .ok fwGroup => (server2, fwMapFetched plan fwGroup)

/-- Runs clusterFirewallGroupResource.Read against the idealized server. -/
def clusterFirewallGroupReadOn (state : FwGroupModel) (server : FwServer) :
    Outcome FwGroupModel :=
  match server.fwGroup state.group.valueString with
  | .error e => .diag ⟨none, "Unable to retrieve Proxmox Cluster Firewall Group", e⟩
  | .ok fwGroup => fwMapFetched state fwGroup

/-! LXC resource (file lxc_resource.go). -/

/-- Embeds lxcResourceModel. -/
structure LxcModel where
  node : TFString
  osTemplate : TFString
  vmId : Int
  deriving Repr, DecidableEq

/-- Embeds lxcResource.Read, whose body is empty: the prior state is left
untouched. -/
def lxcRead (state : LxcModel) : LxcModel :=
  state

/-- Embeds lxcResource.Delete, whose body is empty: no remote call is
made. -/
def lxcDelete (_state : LxcModel) : Outcome Unit × List RemoteOp :=
  (.ok (), [])

/-! Provider configuration (file provider.go). -/

/-- Embeds proxmoxProviderModel. -/
structure ProviderModel where
  host : TFString
  username : TFString
  password : TFString
  deriving Repr, DecidableEq

/-- Embeds the PROXMOX_HOST, PROXMOX_USERNAME and PROXMOX_PASSWORD
environment variables; an unset variable reads as the empty string. -/
structure ProviderEnv where
  host : String
  username : String
  password : String
  deriving Repr, DecidableEq

/-- Embeds the unknown-value checks of Configure, lines 89-114: one
attribute-scoped diagnostic per unknown credential. -/
def unknownDiags (c : ProviderModel) : List Diagnostic :=
  (if c.host.isUnknown then [⟨some "host", "Unknown Proxmox VE API Host", "unknown host"⟩] else [])
    ++ (if c.username.isUnknown then [⟨some "username", "Unknown Proxmox VE API Username", "unknown username"⟩] else [])
    ++ (if c.password.isUnknown then [⟨some "password", "Unknown Proxmox VE API Password", "unknown password"⟩] else [])

/-- Embeds the merge of one credential, lines 123-137: start from the
environment value and override with the configuration value when that is
not null. -/
def mergeCred (c : TFString) (envVal : String) : String :=
  if c.isNull then envVal else c.valueString

/-- Embeds the empty-value checks of Configure, lines 142-170: one
attribute-scoped diagnostic per credential that merged to the empty
string. -/
def missingDiags (host username password : String) : List Diagnostic :=
  (if host = "" then [⟨some "host", "Missing Proxmox VE API Host", "missing host"⟩] else [])
    ++ (if username = "" then [⟨some "username", "Missing Proxmox VE API Username", "missing username"⟩] else [])
    ++ (if password = "" then [⟨some "password", "Missing Proxmox VE API Password", "missing password"⟩] else [])

/-- Embeds the credential phase of proxmoxProvider.Configure, lines
89-174: the unknown checks with early return, then the merge, then the
empty checks with early return, then the resolved triple. -/
def configureCredentials (c : ProviderModel) (env : ProviderEnv) :
    Except (List Diagnostic) (String × String × String) :=
  let ud := unknownDiags c
  if ud.isEmpty then
    let host := mergeCred c.host env.host
    let username := mergeCred c.username env.username
    let password := mergeCred c.password env.password
    let md := missingDiags host username password
    if md.isEmpty then .ok (host, username, password) else .error md
  else .error ud

/-- Modelled from the spec: the resolution the specification states, with
each credential equal to the explicit value when one is present, otherwise
the environment value. Used to compare the source merge against the spec
wording. -/
def specResolve (c : TFString) (envVal : String) : String :=
  match c with
  | .value s => s
  | _ => envVal

/-- True when any of the three explicit credentials is unknown at
configure time. -/
def anyUnknown (c : ProviderModel) : Bool :=
  c.host.isUnknown || c.username.isUnknown || c.password.isUnknown

/-- Overall result of proxmoxProvider.Configure: recoverable diagnostics,
a process abort via the Go builtin panic, or success carrying the
resolved credentials and the fetched server version. -/
inductive ConfigureOutcome where
  | diags (ds : List Diagnostic)
  | aborted (msg : String)
  | success (host username password version : String)
  deriving Repr, DecidableEq

/-- Embeds proxmoxProvider.Configure end to end: the credential phase,
then the client construction (which cannot fail), then the client.Version
call at lines 204-207, whose error is passed to the Go builtin panic
rather than to the diagnostics. -/
def proxmoxConfigure (c : ProviderModel) (env : ProviderEnv)
    (versionResult : Except String String) : ConfigureOutcome :=
  match configureCredentials c env with
  | .error ds => .diags ds
  | .ok (h, u, p) =>
    match versionResult with
    | .error e => .aborted e
    | .ok v => .success h u p v

/-! Provider resource registry and schemas (provider.go lines 216-229 and
the Schema methods of the four resource files). -/

/-- The four resource implementations present in the repository. -/
inductive ResourceKind where
  | clusterFirewallGroup
  | sdnZone
  | sdnVnet
  | lxc
  deriving Repr, DecidableEq

/-- Embeds proxmoxProvider.Resources, lines 225-229: the list of resource
constructors registered with the framework. -/
def providerResources : List ResourceKind :=
  [ResourceKind.clusterFirewallGroup]

/-- Embeds the Metadata type name of each resource implementation, with
the provider type name proxmox as prefix part. -/
def resourceTypeName : ResourceKind → String
  | .clusterFirewallGroup => "proxmox_cluster_firewall_group"
  | .sdnZone => "proxmox_sdn_zone"
  | .sdnVnet => "proxmox_sdn_vnet"
  | .lxc => "proxmox_lxc"

/-- Requiredness of a schema attribute. -/
inductive AttrMode where
  | required
  | optional
  | computed
  deriving Repr, DecidableEq

/-- Embeds the Schema of the cluster firewall group resource, lines 70-96:
group is required, rules is an optional nested list; the comment attribute
is commented out in the source. -/
def clusterFirewallGroupSchemaAttrs : List (String × AttrMode) :=
  [("group", AttrMode.required), ("rules", AttrMode.optional)]

/-- Embeds the nested rule attributes of the firewall group schema. -/
def clusterFirewallGroupRuleAttrs : List (String × AttrMode) :=
  [("action", AttrMode.required), ("type", AttrMode.required)]

/-- Embeds the Schema of the SDN zone resource, lines 68-97 of its file. -/
def sdnZoneSchemaAttrs : List (String × AttrMode) :=
  [("zone", AttrMode.required), ("type", AttrMode.required),
   ("dns", AttrMode.optional), ("bridge", AttrMode.optional),
   ("digest", AttrMode.computed)]

/-- Embeds the allowed values of the zone type attribute. -/
def sdnZoneTypeEnum : List String :=
  ["evpn", "faucet", "qinq", "simple", "vlan", "vxlan"]

/-- Embeds the Schema of the SDN vnet resource. -/
def sdnVnetSchemaAttrs : List (String × AttrMode) :=
  [("zone", AttrMode.required), ("vnet", AttrMode.required)]

/-- Embeds the Schema of the LXC resource. -/
def lxcSchemaAttrs : List (String × AttrMode) :=
  [("node", AttrMode.required), ("os_template", AttrMode.required),
   ("vm_id", AttrMode.required)]

/-! Helper lemmas about the positional rule write. -/

/-- Writing into a list with one element prepended, starting one position
further right, prepends that element to the result. -/
theorem writeRulesFrom_cons_shift (rs : List FirewallRule) (a : FwRuleModel)
    (ls : List FwRuleModel) (i : Nat) :
    writeRulesFrom (a :: ls) (i + 1) rs
      = (writeRulesFrom ls i rs).map (fun out => a :: out) := by
  induction rs generalizing a ls i with
  | nil => rfl
  | cons r rs ih =>
    simp only [writeRulesFrom, List.length_cons]
    by_cases h : i < ls.length
    · rw [if_pos (by omega), if_pos h]
      have hset : (a :: ls).set (i + 1) (ruleOfApi r) = a :: ls.set i (ruleOfApi r) := rfl
      rw [hset, ih]
    · rw [if_neg (by omega), if_neg h]
      rfl

/-- Functional characterization of the positional mapping loop: when the
remote list fits, the result replaces the local prefix with the converted
remote rules and keeps the residual local tail; when the remote list is
longer, the loop hits an out-of-range index. -/
theorem mapRulesPositional_spec (remote : List FirewallRule) (locals : List FwRuleModel) :
    mapRulesPositional locals remote
      = if remote.length ≤ locals.length then
          some (remote.map ruleOfApi ++ locals.drop remote.length)
        else none := by
  induction remote generalizing locals with
  | nil => simp [mapRulesPositional, writeRulesFrom]
  | cons r rs ih =>
    cases locals with
    | nil => simp [mapRulesPositional, writeRulesFrom]
    | cons a ls =>
      have h0 : mapRulesPositional (a :: ls) (r :: rs)
          = writeRulesFrom (ruleOfApi r :: ls) (0 + 1) rs := by
        simp [mapRulesPositional, writeRulesFrom]
      rw [h0, writeRulesFrom_cons_shift]
      have h1 : writeRulesFrom ls 0 rs = mapRulesPositional ls rs := rfl
      rw [h1, ih]
      by_cases h : rs.length ≤ ls.length
      · rw [if_pos h, if_pos (by simp; omega)]
        simp
      · rw [if_neg h, if_neg (by simp; omega)]
        rfl

/-- The positional mapping crashes exactly when the remote rule list is
longer than the local one. -/
theorem mapRulesPositional_none_iff (remote : List FirewallRule) (locals : List FwRuleModel) :
    mapRulesPositional locals remote = none ↔ locals.length < remote.length := by
  rw [mapRulesPositional_spec]
  split
  · simp; omega
  · simp; omega

/-- The positional mapping on a fitting remote list. -/
theorem mapRulesPositional_eq_of_le (remote : List FirewallRule) (locals : List FwRuleModel)
    (h : remote.length ≤ locals.length) :
    mapRulesPositional locals remote
      = some (remote.map ruleOfApi ++ locals.drop remote.length) := by
  rw [mapRulesPositional_spec, if_pos h]

/-- C2: for the cluster firewall group's Create, Read and Update, the
positional write of remote rules into the local model stays within bounds
exactly when the remote list is no longer than the local list; when the
server returns more rules than the local model holds, the operation ends
in a runtime crash rather than a diagnostic. -/
theorem clusterFirewallGroup_positional_rule_mapping
    (m : FwGroupModel) (g : FirewallSecurityGroup) :
    (g.rules.length ≤ m.rules.length →
      clusterFirewallGroupRead m (Except.ok ()) (Except.ok g)
        = Outcome.ok ⟨TFString.value g.group, g.rules.map ruleOfApi ++ m.rules.drop g.rules.length⟩)
    ∧ (m.rules.length < g.rules.length →
      clusterFirewallGroupRead m (Except.ok ()) (Except.ok g) = Outcome.crash
      ∧ clusterFirewallGroupCreate m (Except.ok ()) (Except.ok ()) (Except.ok g) = Outcome.crash
      ∧ ∀ g1 : FirewallSecurityGroup,
          clusterFirewallGroupUpdate m (Except.ok ()) (Except.ok g1) (Except.ok ())
            (Except.ok ()) (Except.ok g) = Outcome.crash) := by
  have hcrash : m.rules.length < g.rules.length →
      fwMapFetched m g = Outcome.crash := by
    intro h
    simp only [fwMapFetched]
    rw [(mapRulesPositional_none_iff g.rules m.rules).mpr h]
  constructor
  · intro h
    simp only [clusterFirewallGroupRead, fwMapFetched]
    rw [mapRulesPositional_eq_of_le g.rules m.rules h]
  · intro h
    refine ⟨?_, ?_, fun g1 => ?_⟩
    · simp only [clusterFirewallGroupRead]
      exact hcrash h
    · simp only [clusterFirewallGroupCreate]
      exact hcrash h
    · simp only [clusterFirewallGroupUpdate]
      exact hcrash h

/-- Witness for C2: with an empty local rule list and one remote rule, the
Read mapping crashes. -/
theorem clusterFirewallGroup_positional_rule_mapping_witness :
    clusterFirewallGroupRead ⟨TFString.value "example", []⟩ (Except.ok ())
        (Except.ok ⟨"example", [⟨"ACCEPT", "in"⟩]⟩) = Outcome.crash :=
  ((clusterFirewallGroup_positional_rule_mapping ⟨TFString.value "example", []⟩
      ⟨"example", [⟨"ACCEPT", "in"⟩]⟩).2 (by decide)).1

/-- C1: evaluation of the SDN zone Read mapping at a state with a
previously-set dns and bridge and a remote response whose dns and bridge
are empty. The unconditional assignments on lines 182-183 of the source
overwrite both local values with the empty string, so the previously-set
values are lost; the guards on lines 175-180, which implement the
suppression the specification states, are dead code in Read. -/
theorem sdnZoneRead_empty_server_overwrites :
    sdnZoneRead
        ⟨TFString.value "example", TFString.value "vlan",
         TFString.value "192.168.2.201", TFString.value "vmbr0", TFString.value "d0"⟩
        (Except.ok ⟨"example", "vlan", "", "", "d0"⟩)
      = Outcome.ok
        ⟨TFString.value "example", TFString.value "vlan",
         TFString.value "", TFString.value "", TFString.value "d0"⟩ := by
  decide

/-- C4: for every resource whose Create issues a remote create call (SDN
zone, cluster firewall group, SDN vnet), an error from that call yields a
diagnostic outcome, and the diag constructor carries no state, so no local
state is persisted for the failed create. -/
theorem create_remote_error_sets_no_state
    (pz : SdnZoneModel) (pf : FwGroupModel) (pv : SdnVnetModel) (e : String)
    (fetch : Except String FirewallSecurityGroup) :
    sdnZoneCreate pz (Except.error e)
        = Outcome.diag ⟨none, "Unable to Read Proxmox Node", e⟩
    ∧ clusterFirewallGroupCreate pf (Except.ok ()) (Except.error e) fetch
        = Outcome.diag ⟨none, "Unable to create Proxmox Cluster Firewall Group", e⟩
    ∧ sdnVnetCreate pv (Except.error e)
        = Outcome.diag ⟨none, "Unable to Read Proxmox Node", e⟩ :=
  ⟨rfl, rfl, rfl⟩

/-- C5 counterexample: the cluster firewall group's Delete makes no remote
call at all on a concrete state, so it does not issue a remote deletion of
the group. -/
theorem clusterFirewallGroupDelete_no_remote_call :
    (clusterFirewallGroupDelete
        ⟨TFString.value "example",
         [⟨TFString.value "ACCEPT", TFString.value "in"⟩]⟩).2 = [] :=
  rfl

/-- C5 amended: the SDN zone and SDN vnet Delete operations resolve the
remote object by its identity key and issue a remote deletion, while the
cluster firewall group and LXC Delete operations make no remote call and
only discard the local record. -/
theorem delete_remote_behavior :
    (∀ (s : SdnZoneModel) (z : Zone),
        sdnZoneDelete s (Except.ok z)
          = (Outcome.ok (), [RemoteOp.resolve s.zone.valueString,
              RemoteOp.delete s.zone.valueString]))
    ∧ (∀ (s : SdnVnetModel) (v : Vnet),
        sdnVnetDelete s (Except.ok v)
          = (Outcome.ok (), [RemoteOp.resolve s.vnet.valueString,
              RemoteOp.delete s.vnet.valueString]))
    ∧ (∀ s : FwGroupModel, clusterFirewallGroupDelete s = (Outcome.ok (), []))
    ∧ (∀ l : LxcModel, lxcDelete l = (Outcome.ok (), [])) :=
  ⟨fun _ _ => rfl, fun _ _ => rfl, fun _ => rfl, fun _ => rfl⟩

/-- C9: the SDN zone Update ignores the result of the remote update call:
the outcome with a failed update equals the outcome with a successful one,
and with both fetches succeeding the operation persists the re-fetched
state as success, with no diagnostic for the update failure. -/
theorem sdnZoneUpdate_discards_update_error (plan : SdnZoneModel)
    (fetch1 : Except String Zone) (e : String) (fetch2 : Except String Zone)
    (r1 r2 : Zone) :
    sdnZoneUpdate plan fetch1 (Except.error e) fetch2
        = sdnZoneUpdate plan fetch1 (Except.ok ()) fetch2
    ∧ sdnZoneUpdate plan (Except.ok r1) (Except.error e) (Except.ok r2)
        = Outcome.ok (zoneUpdateMapped plan r2) :=
  ⟨rfl, rfl⟩

/-! Helper lemmas about the provider configuration. -/

/-- The unknown-value diagnostics are empty exactly when no explicit
credential is unknown. -/
theorem unknownDiags_isEmpty_iff (c : ProviderModel) :
    (unknownDiags c).isEmpty = true ↔ anyUnknown c = false := by
  unfold unknownDiags anyUnknown
  cases c.host.isUnknown <;> cases c.username.isUnknown <;>
    cases c.password.isUnknown <;> simp

/-- The missing-value diagnostics are empty exactly when all three merged
credentials are non-empty. -/
theorem missingDiags_isEmpty_iff (host username password : String) :
    (missingDiags host username password).isEmpty = true
      ↔ (host ≠ "" ∧ username ≠ "" ∧ password ≠ "") := by
  unfold missingDiags
  by_cases h1 : host = "" <;> by_cases h2 : username = "" <;>
    by_cases h3 : password = "" <;> simp [h1, h2, h3]

/-- Every unknown-value diagnostic is attribute-scoped. -/
theorem unknownDiags_attr_scoped (c : ProviderModel) :
    ∀ d ∈ unknownDiags c, d.attrPath.isSome = true := by
  unfold unknownDiags
  cases c.host.isUnknown <;> cases c.username.isUnknown <;>
    cases c.password.isUnknown <;> simp [Option.isSome]

/-- Every missing-value diagnostic is attribute-scoped. -/
theorem missingDiags_attr_scoped (host username password : String) :
    ∀ d ∈ missingDiags host username password, d.attrPath.isSome = true := by
  unfold missingDiags
  by_cases h1 : host = "" <;> by_cases h2 : username = "" <;>
    by_cases h3 : password = "" <;> simp [h1, h2, h3, Option.isSome]

/-- On a known credential, the source merge agrees with the resolution
the specification states. -/
theorem mergeCred_eq_specResolve (c : TFString) (envVal : String)
    (h : c.isUnknown = false) : mergeCred c envVal = specResolve c envVal := by
  cases c <;> simp_all [mergeCred, specResolve, TFString.isNull,
    TFString.valueString, TFString.isUnknown]

/-- C3: the Configure credential phase succeeds with each credential
resolved to the explicit value when present, otherwise the environment
value, exactly when no explicit value is unknown and all three resolved
values are non-empty; every failure returns a non-empty list of
attribute-scoped diagnostics. -/
theorem proxmoxConfigure_credential_resolution (c : ProviderModel) (env : ProviderEnv) :
    (configureCredentials c env
        = Except.ok (specResolve c.host env.host, specResolve c.username env.username,
            specResolve c.password env.password)
      ↔ (anyUnknown c = false ∧ specResolve c.host env.host ≠ ""
          ∧ specResolve c.username env.username ≠ ""
          ∧ specResolve c.password env.password ≠ ""))
    ∧ (∀ ds, configureCredentials c env = Except.error ds →
        ds ≠ [] ∧ ∀ d ∈ ds, d.attrPath.isSome = true) := by
  unfold configureCredentials
  by_cases hu : (unknownDiags c).isEmpty = true
  · have hanyu : anyUnknown c = false := (unknownDiags_isEmpty_iff c).mp hu
    have hux : c.host.isUnknown = false ∧ c.username.isUnknown = false
        ∧ c.password.isUnknown = false := by
      revert hanyu
      unfold anyUnknown
      cases c.host.isUnknown <;> cases c.username.isUnknown <;>
        cases c.password.isUnknown <;> simp
    rw [if_pos hu, mergeCred_eq_specResolve c.host env.host hux.1,
      mergeCred_eq_specResolve c.username env.username hux.2.1,
      mergeCred_eq_specResolve c.password env.password hux.2.2]
    by_cases hm : (missingDiags (specResolve c.host env.host)
        (specResolve c.username env.username) (specResolve c.password env.password)).isEmpty = true
    · rw [if_pos hm]
      constructor
      · constructor
        · intro _
          exact ⟨hanyu, (missingDiags_isEmpty_iff _ _ _).mp hm⟩
        · intro _
          rfl
      · intro ds hds
        exact absurd hds (by simp)
    · rw [if_neg hm]
      constructor
      · constructor
        · intro h
          exact absurd h (by simp)
        · intro h
          exact absurd ((missingDiags_isEmpty_iff _ _ _).mpr ⟨h.2.1, h.2.2.1, h.2.2.2⟩) hm
      · intro ds hds
        have : ds = missingDiags (specResolve c.host env.host)
            (specResolve c.username env.username) (specResolve c.password env.password) := by
          exact (Except.error.injEq _ _).mp hds.symm
        subst this
        refine ⟨?_, missingDiags_attr_scoped _ _ _⟩
        intro hnil
        exact hm (by simp [hnil])
  · rw [if_neg hu]
    constructor
    · constructor
      · intro h
        exact absurd h (by simp)
      · intro h
        exact absurd ((unknownDiags_isEmpty_iff c).mpr h.1) hu
    · intro ds hds
      have : ds = unknownDiags c := (Except.error.injEq _ _).mp hds.symm
      subst this
      refine ⟨?_, unknownDiags_attr_scoped c⟩
      intro hnil
      exact hu (by simp [hnil])

/-- Witness for C3: an explicit host and password with a null username
resolve to the explicit values and the environment username. -/
theorem proxmoxConfigure_credential_resolution_witness :
    configureCredentials
        ⟨TFString.value "https://pve.example:8006", TFString.null, TFString.value "secret"⟩
        ⟨"envhost", "root@pam", ""⟩
      = Except.ok ("https://pve.example:8006", "root@pam", "secret") :=
  (proxmoxConfigure_credential_resolution
      ⟨TFString.value "https://pve.example:8006", TFString.null, TFString.value "secret"⟩
      ⟨"envhost", "root@pam", ""⟩).1.mpr (by decide)

/-- C8: once the credential phase has succeeded, an error from the
server-version call makes Configure abort the process via the Go builtin
panic; the diagnostic-reporting path is not taken for any error value. -/
theorem configure_version_failure_aborts (c : ProviderModel) (env : ProviderEnv)
    (t : String × String × String) (e : String)
    (h : configureCredentials c env = Except.ok t) :
    proxmoxConfigure c env (Except.error e) = ConfigureOutcome.aborted e
    ∧ ∀ ds, proxmoxConfigure c env (Except.error e) ≠ ConfigureOutcome.diags ds := by
  obtain ⟨h1, u1, p1⟩ := t
  unfold proxmoxConfigure
  rw [h]
  exact ⟨rfl, by simp⟩

/-- Witness for C8: concrete credentials and a concrete version error end
in a process abort. -/
theorem configure_version_failure_aborts_witness :
    proxmoxConfigure ⟨TFString.value "h", TFString.value "u", TFString.value "p"⟩
        ⟨"", "", ""⟩ (Except.error "connection refused")
      = ConfigureOutcome.aborted "connection refused" :=
  (configure_version_failure_aborts ⟨TFString.value "h", TFString.value "u", TFString.value "p"⟩
      ⟨"", "", ""⟩ ("h", "u", "p") "connection refused" rfl).1

/-- C7 counterexample: the SDN zone resource is not registered in the
provider Resources list, and the firewall group schema has no comment
attribute, so the provider does not expose the four resource types with
the schemas the claim states. -/
theorem provider_resources_counterexample :
    providerResources.contains ResourceKind.sdnZone = false
    ∧ clusterFirewallGroupSchemaAttrs.all (fun a => a.1 != "comment") = true := by
  decide

/-- C7 amended: the provider registers exactly one managed resource type,
the cluster firewall group, whose schema has group (required) and rules
(optional, with required action and type in each entry) and no comment
attribute; the SDN zone, SDN vnet and LXC implementations exist with the
stated schemas and type names but are not registered in Resources. -/
theorem provider_registry_and_schemas :
    providerResources = [ResourceKind.clusterFirewallGroup]
    ∧ resourceTypeName ResourceKind.clusterFirewallGroup = "proxmox_cluster_firewall_group"
    ∧ resourceTypeName ResourceKind.sdnZone = "proxmox_sdn_zone"
    ∧ resourceTypeName ResourceKind.sdnVnet = "proxmox_sdn_vnet"
    ∧ resourceTypeName ResourceKind.lxc = "proxmox_lxc"
    ∧ clusterFirewallGroupSchemaAttrs
        = [("group", AttrMode.required), ("rules", AttrMode.optional)]
    ∧ clusterFirewallGroupRuleAttrs
        = [("action", AttrMode.required), ("type", AttrMode.required)]
    ∧ sdnZoneSchemaAttrs
        = [("zone", AttrMode.required), ("type", AttrMode.required),
           ("dns", AttrMode.optional), ("bridge", AttrMode.optional),
           ("digest", AttrMode.computed)]
    ∧ sdnZoneTypeEnum = ["evpn", "faucet", "qinq", "simple", "vlan", "vxlan"]
    ∧ sdnVnetSchemaAttrs = [("zone", AttrMode.required), ("vnet", AttrMode.required)]
    ∧ lxcSchemaAttrs
        = [("node", AttrMode.required), ("os_template", AttrMode.required),
           ("vm_id", AttrMode.required)]
    ∧ providerResources.contains ResourceKind.sdnZone = false
    ∧ providerResources.contains ResourceKind.sdnVnet = false
    ∧ providerResources.contains ResourceKind.lxc = false := by
  decide

/-! Helper lemmas about the idealized firewall group server. -/

/-- After deleting a name, no group with that name is found. -/
theorem find_deleteGroup (s : FwServer) (name : String) :
    (s.deleteGroup name).find? (fun g => g.group == name) = none := by
  unfold FwServer.deleteGroup
  rw [List.find?_eq_none]
  intro g hg
  have h2 := (List.mem_filter.mp hg).2
  simp only [bne_iff_ne, ne_eq] at h2
  simp [h2]

/-- Creating a group right after deleting its name succeeds and prepends
the group. -/
theorem newGroup_deleteGroup (s : FwServer) (g : FirewallSecurityGroup) :
    (s.deleteGroup g.group).newGroup g = Except.ok (g :: s.deleteGroup g.group) := by
  unfold FwServer.newGroup
  rw [find_deleteGroup s g.group]

/-- Fetching the name of the head group returns the head group. -/
theorem fwGroup_cons_self (g : FirewallSecurityGroup) (s : FwServer) :
    FwServer.fwGroup (g :: s) g.group = Except.ok g := by
  unfold FwServer.fwGroup
  rw [List.find?_cons_of_pos _ (by simp)]

/-- Mapping the group freshly created from the plan back into the plan
succeeds and yields exactly the converted planned rules. -/
theorem fwMapFetched_ofPlan (plan : FwGroupModel) :
    fwMapFetched plan (fwGroupOfPlan plan)
      = Outcome.ok ⟨TFString.value plan.group.valueString,
          plan.rules.map (fun r => ruleOfApi (ruleToApi r))⟩ := by
  unfold fwMapFetched fwGroupOfPlan
  rw [mapRulesPositional_eq_of_le _ _ (by simp)]
  simp [List.map_map, Function.comp]

/-- Dropping the length of the original list from its image under a map
leaves nothing. -/
theorem map_drop_length {α β : Type} (f : α → β) (l : List α) :
    (l.map f).drop l.length = [] := by
  have h := List.drop_length (l.map f)
  rwa [List.length_map] at h

/-- Re-mapping the freshly created group into the state it already
produced is the identity. -/
theorem fwMapFetched_ofPlan_again (plan : FwGroupModel) :
    fwMapFetched
        ⟨TFString.value plan.group.valueString,
         plan.rules.map (fun r => ruleOfApi (ruleToApi r))⟩
        (fwGroupOfPlan plan)
      = Outcome.ok ⟨TFString.value plan.group.valueString,
          plan.rules.map (fun r => ruleOfApi (ruleToApi r))⟩ := by
  unfold fwMapFetched fwGroupOfPlan
  rw [mapRulesPositional_eq_of_le _ _ (by simp)]
  simp [List.map_map, Function.comp, map_drop_length]

/-- C6: when the planned group name exists remotely, the firewall group
Update deletes the existing group, creates a new group carrying exactly
the planned rule list, re-fetches it and persists it; on the resulting
server a subsequent Read returns exactly the persisted state, with no
residual rules from the prior version. -/
theorem clusterFirewallGroupUpdate_recreate (plan : FwGroupModel) (server : FwServer)
    (g0 : FirewallSecurityGroup)
    (hfound : server.fwGroup plan.group.valueString = Except.ok g0) :
    clusterFirewallGroupUpdateOn plan server
      = (fwGroupOfPlan plan :: server.deleteGroup plan.group.valueString,
         Outcome.ok ⟨TFString.value plan.group.valueString,
           plan.rules.map (fun r => ruleOfApi (ruleToApi r))⟩)
    ∧ FwServer.fwGroup (fwGroupOfPlan plan :: server.deleteGroup plan.group.valueString)
        plan.group.valueString = Except.ok (fwGroupOfPlan plan)
    ∧ clusterFirewallGroupReadOn
        ⟨TFString.value plan.group.valueString,
         plan.rules.map (fun r => ruleOfApi (ruleToApi r))⟩
        (fwGroupOfPlan plan :: server.deleteGroup plan.group.valueString)
      = Outcome.ok ⟨TFString.value plan.group.valueString,
          plan.rules.map (fun r => ruleOfApi (ruleToApi r))⟩ := by
  have hname : (fwGroupOfPlan plan).group = plan.group.valueString := rfl
  have hnew : (server.deleteGroup plan.group.valueString).newGroup (fwGroupOfPlan plan)
      = Except.ok (fwGroupOfPlan plan :: server.deleteGroup plan.group.valueString) := by
    have := newGroup_deleteGroup server (fwGroupOfPlan plan)
    rwa [hname] at this
  have hhead : FwServer.fwGroup
      (fwGroupOfPlan plan :: server.deleteGroup plan.group.valueString)
      plan.group.valueString = Except.ok (fwGroupOfPlan plan) := by
    have := fwGroup_cons_self (fwGroupOfPlan plan) (server.deleteGroup plan.group.valueString)
    rwa [hname] at this
  refine ⟨?_, hhead, ?_⟩
  · simp only [clusterFirewallGroupUpdateOn, hfound, hnew, hhead, fwMapFetched_ofPlan]
  · have hvs : (TFString.value plan.group.valueString).valueString
        = plan.group.valueString := rfl
    simp only [clusterFirewallGroupReadOn, hvs, hhead, fwMapFetched_ofPlan_again]

/-- Witness for C6: updating a concrete one-rule group on a server holding
an older version of that group. -/
theorem clusterFirewallGroupUpdate_recreate_witness :
    clusterFirewallGroupUpdateOn
        ⟨TFString.value "g1", [⟨TFString.value "ACCEPT", TFString.value "in"⟩]⟩
        [⟨"g1", [⟨"DROP", "out"⟩]⟩]
      = (fwGroupOfPlan ⟨TFString.value "g1", [⟨TFString.value "ACCEPT", TFString.value "in"⟩]⟩
           :: FwServer.deleteGroup [⟨"g1", [⟨"DROP", "out"⟩]⟩]
                (TFString.value "g1").valueString,
         Outcome.ok ⟨TFString.value (TFString.value "g1").valueString,
           [⟨TFString.value "ACCEPT", TFString.value "in"⟩].map
             (fun r => ruleOfApi (ruleToApi r))⟩)
    ∧ FwServer.fwGroup
        (fwGroupOfPlan ⟨TFString.value "g1", [⟨TFString.value "ACCEPT", TFString.value "in"⟩]⟩
          :: FwServer.deleteGroup [⟨"g1", [⟨"DROP", "out"⟩]⟩]
               (TFString.value "g1").valueString)
        (TFString.value "g1").valueString
      = Except.ok (fwGroupOfPlan
          ⟨TFString.value "g1", [⟨TFString.value "ACCEPT", TFString.value "in"⟩]⟩)
    ∧ clusterFirewallGroupReadOn
        ⟨TFString.value (TFString.value "g1").valueString,
         [⟨TFString.value "ACCEPT", TFString.value "in"⟩].map
           (fun r => ruleOfApi (ruleToApi r))⟩
        (fwGroupOfPlan ⟨TFString.value "g1", [⟨TFString.value "ACCEPT", TFString.value "in"⟩]⟩
          :: FwServer.deleteGroup [⟨"g1", [⟨"DROP", "out"⟩]⟩]
               (TFString.value "g1").valueString)
      = Outcome.ok ⟨TFString.value (TFString.value "g1").valueString,
          [⟨TFString.value "ACCEPT", TFString.value "in"⟩].map
            (fun r => ruleOfApi (ruleToApi r))⟩ :=
  clusterFirewallGroupUpdate_recreate
    ⟨TFString.value "g1", [⟨TFString.value "ACCEPT", TFString.value "in"⟩]⟩
    [⟨"g1", [⟨"DROP", "out"⟩]⟩] ⟨"g1", [⟨"DROP", "out"⟩]⟩ rfl

/-! Helper lemmas for read idempotence. -/

/-- Closed form of the zone Read mapping: every field except digest comes
from the remote response, digest keeps the local value. -/
theorem zoneReadMapped_eq (s : SdnZoneModel) (ret : Zone) :
    zoneReadMapped s ret
      = ⟨TFString.value ret.zone, TFString.value ret.ty, TFString.value ret.dns,
         TFString.value ret.bridge, s.digest⟩ := by
  unfold zoneReadMapped
  by_cases hd : ret.dns = "" <;> by_cases hb : ret.bridge = "" <;> simp [hd, hb]

/-- Closed form of the vnet Read mapping: both fields come from the remote
response. -/
theorem vnetReadMapped_eq (s : SdnVnetModel) (ret : Vnet) :
    vnetReadMapped s ret = ⟨TFString.value ret.reprStr, TFString.value ret.vnet⟩ :=
  rfl

/-- Closed form of the fetched-group mapping on a fitting remote rule
list. -/
theorem fwMapFetched_eq_of_le (m : FwGroupModel) (g : FirewallSecurityGroup)
    (h : g.rules.length ≤ m.rules.length) :
    fwMapFetched m g
      = Outcome.ok ⟨TFString.value g.group,
          g.rules.map ruleOfApi ++ m.rules.drop g.rules.length⟩ := by
  unfold fwMapFetched
  rw [mapRulesPositional_eq_of_le _ _ h]

/-- The fetched-group mapping crashes on a remote rule list longer than
the local one. -/
theorem fwMapFetched_crash_of_gt (m : FwGroupModel) (g : FirewallSecurityGroup)
    (h : m.rules.length < g.rules.length) :
    fwMapFetched m g = Outcome.crash := by
  unfold fwMapFetched
  rw [(mapRulesPositional_none_iff _ _).mpr h]

/-- C10: for every managed resource, reading twice against the same remote
entity yields the same mapped record both times: the second Read maps the
state produced by the first Read to itself. -/
theorem read_idempotent :
    (∀ (s s1 : SdnZoneModel) (ret : Zone),
        sdnZoneRead s (Except.ok ret) = Outcome.ok s1 →
        sdnZoneRead s1 (Except.ok ret) = Outcome.ok s1)
    ∧ (∀ (t t1 : FwGroupModel) (g : FirewallSecurityGroup),
        clusterFirewallGroupRead t (Except.ok ()) (Except.ok g) = Outcome.ok t1 →
        clusterFirewallGroupRead t1 (Except.ok ()) (Except.ok g) = Outcome.ok t1)
    ∧ (∀ (v v1 : SdnVnetModel) (ret : Vnet),
        sdnVnetRead v (Except.ok ret) = Outcome.ok v1 →
        sdnVnetRead v1 (Except.ok ret) = Outcome.ok v1)
    ∧ (∀ l : LxcModel, lxcRead (lxcRead l) = lxcRead l) := by
  refine ⟨?_, ?_, ?_, fun _ => rfl⟩
  · intro s s1 ret h
    simp only [sdnZoneRead, Outcome.ok.injEq] at h ⊢
    subst h
    rw [zoneReadMapped_eq, zoneReadMapped_eq]
  · intro t t1 g h
    have hread : ∀ m : FwGroupModel,
        clusterFirewallGroupRead m (Except.ok ()) (Except.ok g) = fwMapFetched m g :=
      fun _ => rfl
    rw [hread] at h ⊢
    have hle : g.rules.length ≤ t.rules.length := by
      by_contra hgt
      rw [fwMapFetched_crash_of_gt t g (by omega)] at h
      cases h
    rw [fwMapFetched_eq_of_le t g hle] at h
    have ht1 : t1 = ⟨TFString.value g.group,
        g.rules.map ruleOfApi ++ t.rules.drop g.rules.length⟩ := by
      injection h with h2
      exact h2.symm
    subst ht1
    rw [fwMapFetched_eq_of_le _ g (by simp)]
    have hdrop : (g.rules.map ruleOfApi ++ t.rules.drop g.rules.length).drop g.rules.length
        = t.rules.drop g.rules.length := by
      rw [show g.rules.length = (g.rules.map ruleOfApi).length from (List.length_map _ _).symm,
        List.drop_left]
    rw [hdrop]
  · intro v v1 ret h
    simp only [sdnVnetRead, Outcome.ok.injEq] at h ⊢
    subst h
    rw [vnetReadMapped_eq, vnetReadMapped_eq]

/-- Witness for C10: a second zone Read from the state the first Read
produced returns that state unchanged. -/
theorem read_idempotent_witness :
    sdnZoneRead
        ⟨TFString.value "example", TFString.value "vlan", TFString.value "",
         TFString.value "vmbr0", TFString.value "d0"⟩
        (Except.ok ⟨"example", "vlan", "", "vmbr0", "d2"⟩)
      = Outcome.ok
        ⟨TFString.value "example", TFString.value "vlan", TFString.value "",
         TFString.value "vmbr0", TFString.value "d0"⟩ :=
  read_idempotent.1
    ⟨TFString.value "example", TFString.value "vlan", TFString.null,
     TFString.value "vmbr0", TFString.value "d0"⟩
    ⟨TFString.value "example", TFString.value "vlan", TFString.value "",
     TFString.value "vmbr0", TFString.value "d0"⟩
    ⟨"example", "vlan", "", "vmbr0", "d2"⟩ (by decide)

end ProxmoxProvider
